import Mathlib

/-!
# Verification of the optimize/rebalance orchestration layer

Shallow embedding of the backend orchestration code of this repository:
the request/response mapper (`mapDatasetOption`, `toFastApiOptimizeBody`,
`normalizeOptimize`), the solver client error classification
(`callQuantumOptimize`, `callQuantumOptimizeJSON`), the inbound request
validation (`OptimizeRequestSchema`) with the optimize controller, and the
rebalance handler status mapping.

JavaScript numbers are modelled as rationals (`ℚ`); a JSON field that may be
absent (or non-numeric, which `Number(x) || 0` treats like an absent value)
is modelled as an `Option`.  Wall-clock timestamps (`new Date().toISOString()`)
are passed in explicitly as a `now : String` parameter.
-/

namespace QuantumGateway

/-- JavaScript `Math.round`: rounds half toward positive infinity,
i.e. `Math.round x = ⌊x + 1/2⌋`. -/
def jsRound (x : ℚ) : ℤ := ⌊x + 1/2⌋

/-- Rounding half away from zero, the rounding mode named by the spec. -/
def roundHalfAwayFromZero (x : ℚ) : ℤ :=
  if 0 ≤ x then ⌊x + 1/2⌋ else -⌊-x + 1/2⌋

/-- `Number(x) || 0` applied to a possibly-absent numeric field: an absent or
non-numeric value (modelled as `none`) yields `0`; a numeric value passes
through (note `0 || 0 = 0` agrees). -/
def jsNumberOr0 : Option ℚ → ℚ
  | some w => w
  | none => 0

/-- `String(x || d)` applied to a possibly-absent string field: `undefined`,
`null` and the empty string are falsy and replaced by the default `d`. -/
def jsStringOr : Option String → String → String
  | none, d => d
  | some s, d => if s = "" then d else s

/-- `a.isSomeAnd p` helper: membership test on small closed string sets. -/
def memStr (s : String) (xs : List String) : Bool := xs.contains s

/-- Whether `needle` is a leading segment of `hay` (character lists). -/
def leadMatch : List Char → List Char → Bool
  | [], _ => true
  | _ :: _, [] => false
  | a :: as, b :: bs => a == b && leadMatch as bs

/-- Substring search on character lists. -/
def subSearch (needle : List Char) : List Char → Bool
  | [] => leadMatch needle []
  | c :: cs => leadMatch needle (c :: cs) || subSearch needle cs

/-- JavaScript `s.includes(sub)`. -/
def jsIncludes (s sub : String) : Bool := subSearch sub.toList s.toList

/-! ## Dataset mapping (src: `mapDatasetOption`, `toFastApiOptimizeBody`) -/

/-- `mapDatasetOption` from `quantum.service.js`: UI dataset → FastAPI
`dataset_option`, with a `default` branch returning the fallback dataset. -/
def mapDatasetOption (uiDataset : String) : String :=
  if uiDataset = "NIFTY50" then "NIFTY50"
  else if uiDataset = "NASDAQ100" then "NASDAQ"
  else if uiDataset = "CRYPTO50" then "Crypto"
  else "NIFTY50"

/-- The solver's closed dataset enum: the range of `mapDatasetOption`. -/
def solverDatasetEnum : List String := ["NIFTY50", "NASDAQ", "Crypto"]

/-- A validated Mode A optimize request as consumed by
`toFastApiOptimizeBody` (fields it reads). -/
structure ModeARequest where
  dataset : String
  riskLevel : Option String
  budget : ℚ
  maxAssets : ℚ

/-- The FastAPI `/optimize` request body. -/
structure FastApiOptimizeBody where
  dataset_option : String
  budget : ℚ
  risk_factor : String
  total_investment : ℚ
  deriving DecidableEq

/-- `toFastApiOptimizeBody` from `quantum.service.js`: note `budget` is the
number of assets to pick (`maxAssets`) and `total_investment` is the money
budget. -/
def toFastApiOptimizeBody (modeA : ModeARequest) : FastApiOptimizeBody :=
  { dataset_option := mapDatasetOption modeA.dataset
  , budget := modeA.maxAssets
  , risk_factor := jsStringOr modeA.riskLevel "medium"
  , total_investment := modeA.budget }

/-! ## Solver raw response and normalization (src: `normalizeOptimize`) -/

/-- One entry of the solver's raw `portfolio` array.  `weight`, `percentage`
and `expected_return` may be absent (or non-numeric, which the code treats
like absent via `Number(x) || 0` / `typeof x === "number"` guards). -/
structure RawPortfolioEntry where
  asset : String
  weight : Option ℚ
  percentage : Option ℚ
  expected_return : Option ℚ
  deriving DecidableEq

/-- The solver's raw `/optimize` JSON response.  A `runId` key may be present
in the JSON; `normalizeOptimize` never reads it. -/
structure FastApiRawResponse where
  runId : Option String
  portfolio : List RawPortfolioEntry
  dataset : String
  objective_value : Option ℚ
  gamma : Option ℚ
  deriving DecidableEq

/-- Modelled from the spec: the acceptance condition of
`FastApiOptimizeResponseSchema` on one portfolio entry (the schema definition
in `utils/validate.js` is not among the provided sources).  Per the spec's
`SolverRawResponse`, `weight` is a required real in `[0,1]` and `percentage`,
when present, is a real in `[0,100]`. -/
def entryOk (p : RawPortfolioEntry) : Bool :=
  (match p.weight with
   | some w => decide (0 ≤ w ∧ w ≤ 1)
   | none => false) &&
  (match p.percentage with
   | some q => decide (0 ≤ q ∧ q ≤ 100)
   | none => true)

/-- Modelled from the spec: the acceptance condition of
`FastApiOptimizeResponseSchema` (missing from the provided sources): every
portfolio entry must satisfy `entryOk`. -/
def fastApiSchemaAccepts (r : FastApiRawResponse) : Bool :=
  r.portfolio.all entryOk

/-- One entry of the normalized `allocation` array. -/
structure AllocationEntry where
  name : String
  value : ℤ
  deriving DecidableEq

/-- The normalized (client-facing) optimize response built by
`normalizeOptimize`.  The `diagnostics` object of the source is flattened
into its four fields. -/
structure NormalizedResponse where
  runId : String
  method : String
  selected : List String
  weights : List ℚ
  allocation : List AllocationEntry
  expectedReturn : Option ℚ
  risk : Option ℚ
  sharpe : Option ℚ
  diagBackend : String
  diagDataset : String
  diagObjectiveValue : Option ℚ
  diagGamma : Option ℚ
  deriving DecidableEq

/-- Modelled from the spec: `NormalizedOptimizeResponseSchema` (missing from
the provided sources) enforces the stated invariant
`len(selectedAssetIds) == len(weights) == len(allocation)`. -/
def normalizedSchemaParse (n : NormalizedResponse) :
    Except String NormalizedResponse :=
  if n.selected.length = n.weights.length ∧
     n.weights.length = n.allocation.length
  then .ok n else .error "NormalizedOptimizeResponseSchema: parse failure"

/-- The allocation percentage of one entry, from the source line
`Math.round(typeof p.percentage === "number" ? p.percentage
: (Number(p.weight) || 0) * 100)`. -/
def allocationValue (p : RawPortfolioEntry) : ℤ :=
  jsRound (match p.percentage with
    | some q => q
    | none => jsNumberOr0 p.weight * 100)

/-- The per-asset expected returns that are present (numeric), from the
source lines `portfolio.map(p => typeof p.expected_return === "number"
? p.expected_return : null).filter(v => v !== null)`. -/
def presentExpRets (parsed : FastApiRawResponse) : List ℚ :=
  parsed.portfolio.filterMap (·.expected_return)

/-- The `normalized` object literal built by `normalizeOptimize` from the
parsed response (before the final schema parse). -/
def normalizeCore (now : String) (parsed : FastApiRawResponse) :
    NormalizedResponse :=
  { runId := now
  , method := "quantum"
  , selected := parsed.portfolio.map (·.asset)
  , weights := parsed.portfolio.map (fun p => jsNumberOr0 p.weight)
  , allocation := parsed.portfolio.map (fun p =>
      { name := p.asset, value := allocationValue p })
  , expectedReturn :=
      if (presentExpRets parsed).length ≠ 0 then
        some ((presentExpRets parsed).sum / (presentExpRets parsed).length)
      else none
  , risk := none
  , sharpe := none
  , diagBackend := "fastapi"
  , diagDataset := parsed.dataset
  , diagObjectiveValue := parsed.objective_value
  , diagGamma := parsed.gamma }

/-- `normalizeOptimize` from `quantum.service.js`: parse the raw JSON against
the response schema, build the normalized object (stamping a fresh
timestamp-based `runId := now`), and parse that against the normalized
schema.  A schema violation raises, modelled as `Except.error`. -/
def normalizeOptimize (now : String) (fastApiJson : FastApiRawResponse) :
    Except String NormalizedResponse :=
  if fastApiSchemaAccepts fastApiJson then
    normalizedSchemaParse (normalizeCore now fastApiJson)
  else .error "FastApiOptimizeResponseSchema: parse failure"

/-- On schema-accepted input, `normalizeOptimize` succeeds with the
`normalizeCore` value (the final normalized-schema parse passes because all
three sequences are maps over the same portfolio list). -/
theorem normalizeOptimize_ok (now : String) (raw : FastApiRawResponse)
    (h : fastApiSchemaAccepts raw = true) :
    normalizeOptimize now raw = .ok (normalizeCore now raw) := by
  unfold normalizeOptimize normalizedSchemaParse
  rw [if_pos h, if_pos]
  simp [normalizeCore]

/-- Rounding half away from zero agrees with JavaScript `Math.round` on
nonnegative inputs. -/
theorem roundHalfAwayFromZero_eq_jsRound {x : ℚ} (hx : 0 ≤ x) :
    roundHalfAwayFromZero x = jsRound x := by
  unfold roundHalfAwayFromZero jsRound
  rw [if_pos hx]

/-- A fixture-style sample solver response used to instantiate the
hypothesis-bearing theorems at concrete inputs. -/
def sampleRaw : FastApiRawResponse :=
  { runId := none
  , portfolio :=
      [ { asset := "X", weight := some (1/2), percentage := none,
          expected_return := none }
      , { asset := "Y", weight := some (3/10), percentage := none,
          expected_return := some (12/100) }
      , { asset := "Z", weight := some (1/5), percentage := some 20,
          expected_return := none } ]
  , dataset := "NIFTY50"
  , objective_value := some 1
  , gamma := none }

/-- The sample response is accepted by the (spec-modelled) raw-response
schema. -/
theorem sampleRaw_accepts : fastApiSchemaAccepts sampleRaw = true := by
  simp [fastApiSchemaAccepts, sampleRaw, entryOk]
  norm_num

/-- **C1.** For every solver raw response accepted by the raw-response
schema, `normalizeOptimize` succeeds and the normalized response's
`selected`, `weights` and `allocation` sequences are each the image of the
input `portfolio` sequence under a per-entry map — hence all three have
equal length and list the portfolio entries in exactly the input order, with
no sorting or reordering. -/
theorem c1_normalize_length_and_order (now : String) (raw : FastApiRawResponse)
    (h : fastApiSchemaAccepts raw = true) :
    ∃ resp, normalizeOptimize now raw = .ok resp ∧
      resp.selected = raw.portfolio.map (·.asset) ∧
      resp.weights = raw.portfolio.map (fun p => jsNumberOr0 p.weight) ∧
      resp.allocation = raw.portfolio.map (fun p =>
        { name := p.asset, value := allocationValue p }) ∧
      resp.selected.length = resp.weights.length ∧
      resp.weights.length = resp.allocation.length := by
  refine ⟨normalizeCore now raw, normalizeOptimize_ok now raw h,
    rfl, rfl, rfl, ?_, ?_⟩ <;> simp [normalizeCore]

/-- Witness for C1 at the concrete sample response. -/
theorem c1_normalize_length_and_order_witness :
    ∃ resp, normalizeOptimize "2024-01-01T00:00:00.000Z" sampleRaw = .ok resp ∧
      resp.selected = sampleRaw.portfolio.map (·.asset) ∧
      resp.weights = sampleRaw.portfolio.map (fun p => jsNumberOr0 p.weight) ∧
      resp.allocation = sampleRaw.portfolio.map (fun p =>
        { name := p.asset, value := allocationValue p }) ∧
      resp.selected.length = resp.weights.length ∧
      resp.weights.length = resp.allocation.length :=
  c1_normalize_length_and_order "2024-01-01T00:00:00.000Z" sampleRaw sampleRaw_accepts

/-- **C2.** For every schema-accepted solver response, each allocation entry
carries `round(percentage)` when `percentage` is present and
`round(weight * 100)` when it is absent, where `round` is
round-half-away-from-zero (on the schema-accepted domain all rounded values
are nonnegative, so JavaScript `Math.round` coincides with
round-half-away-from-zero). -/
theorem c2_allocation_rounding (now : String) (raw : FastApiRawResponse)
    (h : fastApiSchemaAccepts raw = true) :
    ∃ resp, normalizeOptimize now raw = .ok resp ∧
      resp.allocation = raw.portfolio.map (fun p =>
        { name := p.asset
          value := roundHalfAwayFromZero (match p.percentage with
            | some q => q
            | none => jsNumberOr0 p.weight * 100) }) := by
  refine ⟨normalizeCore now raw, normalizeOptimize_ok now raw h, ?_⟩
  show List.map _ _ = List.map _ _
  apply List.map_congr_left
  intro p hp
  have hall : ∀ q ∈ raw.portfolio, entryOk q = true := by
    unfold fastApiSchemaAccepts at h
    simpa using h
  have he := hall p hp
  rw [entryOk, Bool.and_eq_true] at he
  cases hper : p.percentage with
  | some q =>
    have hq : 0 ≤ q := by
      have := he.2
      rw [hper] at this
      simp at this
      exact this.1
    simp only [allocationValue, hper,
      roundHalfAwayFromZero_eq_jsRound hq]
  | none =>
    cases hw : p.weight with
    | none =>
      exfalso
      have := he.1
      rw [hw] at this
      simp at this
    | some w =>
      have hwpos : 0 ≤ w := by
        have := he.1
        rw [hw] at this
        simp at this
        exact this.1
      have harg : (0 : ℚ) ≤ jsNumberOr0 (some w) * 100 := by
        simp only [jsNumberOr0]
        positivity
      simp only [allocationValue, hper, hw,
        roundHalfAwayFromZero_eq_jsRound harg]

/-- Witness for C2 at the concrete sample response (covers both a
`percentage`-present entry and `percentage`-absent entries). -/
theorem c2_allocation_rounding_witness :
    ∃ resp, normalizeOptimize "2024-01-01T00:00:00.000Z" sampleRaw = .ok resp ∧
      resp.allocation = sampleRaw.portfolio.map (fun p =>
        { name := p.asset
          value := roundHalfAwayFromZero (match p.percentage with
            | some q => q
            | none => jsNumberOr0 p.weight * 100) }) :=
  c2_allocation_rounding "2024-01-01T00:00:00.000Z" sampleRaw sampleRaw_accepts

/-- **C3.** For every schema-accepted solver response, the aggregate
`expectedReturn` is the arithmetic mean (sum divided by count) of exactly the
per-asset `expected_return` values that are present, and is absent precisely
when no portfolio entry carries one — a missing per-asset value is dropped
from the mean, never counted as zero. -/
theorem c3_expected_return_mean (now : String) (raw : FastApiRawResponse)
    (h : fastApiSchemaAccepts raw = true) :
    ∃ resp, normalizeOptimize now raw = .ok resp ∧
      resp.expectedReturn =
        (if presentExpRets raw = [] then none
         else some ((presentExpRets raw).sum / (presentExpRets raw).length)) ∧
      (presentExpRets raw = [] ↔
        ∀ p ∈ raw.portfolio, p.expected_return = none) := by
  refine ⟨normalizeCore now raw, normalizeOptimize_ok now raw h, ?_, ?_⟩
  · show (if (presentExpRets raw).length ≠ 0 then _ else _) = _
    rcases eq_or_ne (presentExpRets raw) [] with he | he
    · simp [he]
    · have hlen : (presentExpRets raw).length ≠ 0 := by
        simpa [List.length_eq_zero] using he
      simp [he, hlen]
  · simp [presentExpRets, List.filterMap_eq_nil_iff]

/-- Witness for C3 at the concrete sample response (exactly one entry has an
`expected_return`, so the mean is that value and the absence criterion is
falsified on the left and the right simultaneously). -/
theorem c3_expected_return_mean_witness :
    ∃ resp, normalizeOptimize "2024-01-01T00:00:00.000Z" sampleRaw = .ok resp ∧
      resp.expectedReturn =
        (if presentExpRets sampleRaw = [] then none
         else some ((presentExpRets sampleRaw).sum /
           (presentExpRets sampleRaw).length)) ∧
      (presentExpRets sampleRaw = [] ↔
        ∀ p ∈ sampleRaw.portfolio, p.expected_return = none) :=
  c3_expected_return_mean "2024-01-01T00:00:00.000Z" sampleRaw sampleRaw_accepts

/-! ## C10: entries with an absent weight -/

/-- A raw response whose single portfolio entry has no `weight` field. -/
def c10raw : FastApiRawResponse :=
  { runId := none
  , portfolio :=
      [ { asset := "X", weight := none, percentage := none,
          expected_return := none } ]
  , dataset := "NIFTY50"
  , objective_value := none
  , gamma := none }

/-- **C10, counterexample.** The claim states that `normalizeOptimize`
outputs `0` in `weights` (and `0` as the allocation percentage) for an entry
whose `weight` is absent.  In fact the raw-response schema (modelled from the
spec, which makes `weight` a required real in `[0,1]`) rejects such an entry,
so `normalizeOptimize` returns an error and produces no normalized response
at all: an absent weight is not rendered as an explicit zero weight in the
client-facing response. -/
theorem c10_missing_weight_counterexample :
    c10raw.portfolio.map (·.weight) = [none] ∧
    normalizeOptimize "T0" c10raw =
      .error "FastApiOptimizeResponseSchema: parse failure" := by
  constructor
  · rfl
  · rfl

/-- **C10, amended.** The mapping stage of `normalizeOptimize` does treat an
absent (or non-numeric) `weight` as `0` — the `weights` entry would be `0`,
indistinguishable from an explicit zero weight, and with `percentage` also
absent the allocation percentage would be `0` — but the raw-response schema
requires `weight`, so a portfolio containing such an entry is rejected at the
parse step and never reaches the client-facing normalized response. -/
theorem c10_missing_weight_amended :
    (∀ p : RawPortfolioEntry, p.weight = none →
      jsNumberOr0 p.weight = 0 ∧
      (p.percentage = none → allocationValue p = 0) ∧
      ∀ q : RawPortfolioEntry, q.weight = some 0 →
        jsNumberOr0 p.weight = jsNumberOr0 q.weight) ∧
    (∀ (now : String) (raw : FastApiRawResponse),
      (∃ p ∈ raw.portfolio, p.weight = none) →
      normalizeOptimize now raw =
        .error "FastApiOptimizeResponseSchema: parse failure") := by
  constructor
  · intro p hp
    refine ⟨by simp [jsNumberOr0, hp], ?_, ?_⟩
    · intro hper
      simp [allocationValue, hper, hp, jsNumberOr0, jsRound]
      norm_num
    · intro q hq
      simp [jsNumberOr0, hp, hq]
  · intro now raw ⟨p, hp, hw⟩
    have hrej : fastApiSchemaAccepts raw = false := by
      unfold fastApiSchemaAccepts
      rw [List.all_eq_false]
      refine ⟨p, hp, ?_⟩
      rw [entryOk, hw]
      simp
    unfold normalizeOptimize
    rw [hrej]
    rfl

/-- Witness for the amended C10 at a concrete entry and response. -/
theorem c10_missing_weight_amended_witness :
    (jsNumberOr0 (RawPortfolioEntry.weight
      { asset := "X", weight := none, percentage := none,
        expected_return := none }) = 0) ∧
    normalizeOptimize "T1" c10raw =
      .error "FastApiOptimizeResponseSchema: parse failure" := by
  refine ⟨(c10_missing_weight_amended.1 _ rfl).1, ?_⟩
  exact c10_missing_weight_amended.2 "T1" c10raw
    ⟨_, List.mem_singleton.mpr rfl, rfl⟩

/-! ## Error classification and the solver client
(src: `callQuantumOptimize`, `callQuantumOptimizeJSON`) -/

/-- The error kinds the service layer attaches as `err.type`. -/
inductive ErrKind where
  | validation
  | upstream_timeout
  | upstream_unavailable
  deriving DecidableEq

/-- A thrown JavaScript error as observed by the handlers: an optional
`type` tag, a message, the zod `issues` list when the error is a schema
failure, and an optional `details` list.  An error with neither recognised
`type` nor `issues` is treated as internal by the status mapping. -/
structure JsError where
  etype : Option ErrKind
  message : String
  issues : Option (List String)
  details : List String
  deriving DecidableEq

/-- A zod parse failure (an error carrying `issues`). -/
def zodError (msgs : List String) : JsError :=
  { etype := none, message := "ZodError", issues := some msgs, details := [] }

/-- An upstream error built by the service layer (`err.type = kind`). -/
def upstreamErr (kind : ErrKind) (msg : String) : JsError :=
  { etype := some kind, message := msg, issues := none, details := [] }

/-- The outcome of the single outbound `fetch`: either the promise rejects
(with the stringified error the `catch` block inspects), or an HTTP response
with a status code and a JSON body arrives.  The timeout timer runs
`controller.abort("timeout")`, so a timeout firing before a response rejects
the fetch with the abort reason `"timeout"`. -/
inductive FetchOutcome where
  | failure (errString : String)
  | response (status : Nat) (body : FastApiRawResponse)

/-- The abort reason installed by the timeout timer
(`controller.abort("timeout")`). -/
def timeoutAbortReason : String := "timeout"

/-- `res.ok`: HTTP status in the inclusive range 200–299. -/
def resOk (status : Nat) : Bool := 200 ≤ status && status < 300

/-- Transport-failure classification from the `catch` block of both service
functions: `String(e).includes("timeout") ? "upstream_timeout"
: "upstream_unavailable"`. -/
def classifyTransportFailure (e : String) : ErrKind :=
  if jsIncludes e "timeout" then .upstream_timeout else .upstream_unavailable

/-- Non-success HTTP status classification:
`res.status === 504 ? "upstream_timeout" : "upstream_unavailable"`. -/
def classifyHttpStatus (status : Nat) : ErrKind :=
  if status = 504 then .upstream_timeout else .upstream_unavailable

/-- `callQuantumOptimizeJSON` from `quantum.service.js`, with its effects
made explicit: `mockMode` is the configuration flag, `fixture` the result of
reading and JSON-parsing the fixture file, `baseUrlSet` whether
`QUANTUM_BASE_URL` is configured, `outcome` what the single outbound `fetch`
would produce, and `now` the wall clock.  The second component counts
outbound fetch calls. -/
def callQuantumOptimizeJSON (mockMode : Bool)
    (fixture : Except String FastApiRawResponse)
    (baseUrlSet : Bool) (outcome : FetchOutcome) (now : String) :
    Except JsError NormalizedResponse × Nat :=
  if mockMode then
    match fixture with
    | .error e =>
      (.error { etype := none, message := e, issues := none, details := [] }, 0)
    | .ok json =>
      match normalizeOptimize now json with
      | .error e => (.error (zodError [e]), 0)
      | .ok normalized => (.ok { normalized with runId := now }, 0)
  else if baseUrlSet then
    match outcome with
    | .failure e =>
      (.error (upstreamErr (classifyTransportFailure e)
        "Quantum API request failed or timed out"), 1)
    | .response status body =>
      if resOk status then
        match normalizeOptimize now body with
        | .error e => (.error (zodError [e]), 1)
        | .ok normalized => (.ok normalized, 1)
      else
        (.error (upstreamErr (classifyHttpStatus status)
          "Quantum API error"), 1)
  else
    (.error (upstreamErr .upstream_unavailable "QUANTUM_BASE_URL not set"), 0)

/-- The classification attached to the result of a service call (`none` on
success). -/
def resultKind {α : Type} : Except JsError α × Nat → Option ErrKind
  | (.error e, _) => e.etype
  | (.ok _, _) => none

/-- **C6.** On the live solver path (mock mode off, base URL configured):
the configured timeout firing before a response rejects the fetch with the
abort reason `"timeout"` and is classified `upstream_timeout`; a received
HTTP 504 is classified `upstream_timeout`; any other non-success HTTP status
is classified `upstream_unavailable`; and any other transport failure (one
whose stringified error does not contain `"timeout"`) is classified
`upstream_unavailable`. -/
theorem c6_error_classification (fx : Except String FastApiRawResponse)
    (now e : String) (s : Nat) (body body2 : FastApiRawResponse) :
    resultKind (callQuantumOptimizeJSON false fx true
        (.failure timeoutAbortReason) now) = some .upstream_timeout ∧
    resultKind (callQuantumOptimizeJSON false fx true
        (.response 504 body) now) = some .upstream_timeout ∧
    (resOk s = false → s ≠ 504 →
      resultKind (callQuantumOptimizeJSON false fx true
        (.response s body2) now) = some .upstream_unavailable) ∧
    (jsIncludes e "timeout" = false →
      resultKind (callQuantumOptimizeJSON false fx true
        (.failure e) now) = some .upstream_unavailable) := by
  refine ⟨?_, ?_, ?_, ?_⟩
  · have ht : jsIncludes timeoutAbortReason "timeout" = true := by decide
    simp [callQuantumOptimizeJSON, resultKind, upstreamErr,
      classifyTransportFailure, ht]
  · have h504 : resOk 504 = false := by decide
    simp [callQuantumOptimizeJSON, resultKind, upstreamErr,
      classifyHttpStatus, h504]
  · intro hok h504
    simp [callQuantumOptimizeJSON, resultKind, upstreamErr,
      classifyHttpStatus, hok, h504]
  · intro he
    simp [callQuantumOptimizeJSON, resultKind, upstreamErr,
      classifyTransportFailure, he]

/-- Witness for C6 at concrete inputs: status 503 (not ok, not 504) and a
generic transport failure string without `"timeout"`. -/
theorem c6_error_classification_witness :
    (resOk 503 = false ∧ 503 ≠ 504 ∧ jsIncludes "fetch failed" "timeout" = false) ∧
    resultKind (callQuantumOptimizeJSON false (.ok sampleRaw) true
      (.response 503 sampleRaw) "T") = some .upstream_unavailable ∧
    resultKind (callQuantumOptimizeJSON false (.ok sampleRaw) true
      (.failure "fetch failed") "T") = some .upstream_unavailable := by
  refine ⟨⟨by decide, by decide, by decide⟩, ?_, ?_⟩
  · exact (c6_error_classification (.ok sampleRaw) "T" "fetch failed" 503
      sampleRaw sampleRaw).2.2.1 (by decide) (by decide)
  · exact (c6_error_classification (.ok sampleRaw) "T" "fetch failed" 503
      sampleRaw sampleRaw).2.2.2 (by decide)

/-! ## The legacy v1 optimize service (src: `callQuantumOptimize`,
`OptimizeResponseSchema`) -/

/-- The raw JSON body of a v1 solver response, as read by
`callQuantumOptimize` before schema validation. -/
structure V1RawResponse where
  runId : Option String
  method : Option String
  weights : Option (List ℚ)
  selected : Option (List String)
  expectedReturn : Option ℚ
  risk : Option ℚ
  sharpe : Option ℚ
  deriving DecidableEq

/-- A response validated by `OptimizeResponseSchema` from
`utils/validate.js`: `runId` a string, `method` the literal `"quantum"`,
at least one weight, `selected` a string array, and finite numerics (always
finite over `ℚ`).  The fully-optional `diagnostics` sub-object cannot fail
validation and is omitted. -/
structure V1Response where
  runId : String
  method : String
  weights : List ℚ
  selected : List String
  expectedReturn : ℚ
  risk : ℚ
  sharpe : ℚ
  deriving DecidableEq

/-- `OptimizeResponseSchema.parse` from `utils/validate.js`. -/
def optimizeResponseSchemaParse (r : V1RawResponse) :
    Except JsError V1Response :=
  match r.runId, r.method, r.weights, r.selected,
        r.expectedReturn, r.risk, r.sharpe with
  | some rid, some m, some ws, some sel, some er, some rk, some sh =>
    if m = "quantum" ∧ 1 ≤ ws.length then
      .ok { runId := rid, method := m, weights := ws, selected := sel,
            expectedReturn := er, risk := rk, sharpe := sh }
    else .error (zodError ["OptimizeResponseSchema violation"])
  | _, _, _, _, _, _, _ =>
    .error (zodError ["OptimizeResponseSchema violation"])

/-- `!json.runId`: an absent or empty-string `runId` is falsy. -/
def runIdFalsy : Option String → Bool
  | none => true
  | some s => s = ""

/-- The success tail of `callQuantumOptimize` (the v1 service wired to the
optimize route): `if (!json.runId) json.runId = new Date().toISOString();
return OptimizeResponseSchema.parse(json);`. -/
def v1FinishResponse (now : String) (json : V1RawResponse) :
    Except JsError V1Response :=
  optimizeResponseSchemaParse
    (if runIdFalsy json.runId then { json with runId := some now } else json)

/-- A raw solver response that carries its own `runId`. -/
def c4raw : FastApiRawResponse :=
  { runId := some "solver-run-7"
  , portfolio :=
      [ { asset := "X", weight := some 1, percentage := none,
          expected_return := none } ]
  , dataset := "NIFTY50"
  , objective_value := none
  , gamma := none }

/-- **C4, counterexample.** On the live path of `callQuantumOptimizeJSON`,
the normalization (`normalizeOptimize`) stamps `runId` with a fresh
timestamp unconditionally: a solver response that supplies its own `runId`
(`"solver-run-7"`) yields a normalized response whose `runId` is the fresh
timestamp, not the supplied identifier, contradicting the claim that the
supplied `runId` is used whenever present. -/
theorem c4_runid_counterexample :
    c4raw.runId = some "solver-run-7" ∧
    (normalizeOptimize "2030-01-01T00:00:00.000Z" c4raw).toOption.map
      (fun r => r.runId) = some "2030-01-01T00:00:00.000Z" ∧
    ("2030-01-01T00:00:00.000Z" : String) ≠ "solver-run-7" := by
  refine ⟨rfl, ?_, by decide⟩
  have hacc : fastApiSchemaAccepts c4raw = true := by
    simp [fastApiSchemaAccepts, c4raw, entryOk]
  rw [normalizeOptimize_ok _ _ hacc]
  rfl

/-- A response accepted by `OptimizeResponseSchema` echoes the raw
`runId`. -/
theorem v1_parse_ok_runId (r : V1RawResponse) (resp : V1Response)
    (h : optimizeResponseSchemaParse r = .ok resp) :
    r.runId = some resp.runId := by
  unfold optimizeResponseSchemaParse at h
  split at h
  · split at h
    · cases h
      assumption
    · exact Except.noConfusion h
  · exact Except.noConfusion h

/-- **C4, amended.** On the v1 live path (`callQuantumOptimize`, the service
wired to the optimize route), the response keeps the solver-supplied `runId`
whenever it is present and non-empty, and receives a fresh timestamp exactly
when the solver's `runId` is absent (or empty, which JavaScript treats as
missing); on the v2 path (`normalizeOptimize`, used by
`callQuantumOptimizeJSON`), the normalized `runId` is always the fresh
timestamp regardless of what the solver sent. -/
theorem c4_runid_amended :
    (∀ (now s : String) (json : V1RawResponse) (resp : V1Response),
      json.runId = some s → s ≠ "" →
      v1FinishResponse now json = .ok resp → resp.runId = s) ∧
    (∀ (now : String) (json : V1RawResponse) (resp : V1Response),
      runIdFalsy json.runId = true →
      v1FinishResponse now json = .ok resp → resp.runId = now) ∧
    (∀ (now : String) (raw : FastApiRawResponse) (resp : NormalizedResponse),
      normalizeOptimize now raw = .ok resp → resp.runId = now) := by
  refine ⟨?_, ?_, ?_⟩
  · intro now s json resp hrid hs hok
    unfold v1FinishResponse at hok
    rw [hrid] at hok
    simp only [runIdFalsy, hs, decide_eq_true_eq, if_false] at hok
    have h1 := v1_parse_ok_runId json resp hok
    rw [hrid] at h1
    exact (Option.some.inj h1).symm
  · intro now json resp hfalsy hok
    unfold v1FinishResponse at hok
    rw [if_pos hfalsy] at hok
    have h1 := v1_parse_ok_runId _ resp hok
    exact (Option.some.inj h1).symm
  · intro now raw resp hok
    unfold normalizeOptimize at hok
    split at hok
    · unfold normalizedSchemaParse at hok
      split at hok
      · cases hok
        rfl
      · cases hok
    · cases hok

/-- A v1 raw response carrying a non-empty `runId`, and one lacking it. -/
def c4v1withRunId : V1RawResponse :=
  { runId := some "solver-run-7", method := some "quantum",
    weights := some [1], selected := some ["X"],
    expectedReturn := some 0, risk := some 0, sharpe := some 0 }

/-- Witness for the amended C4 at concrete responses: the v1 path keeps a
supplied `runId`, the v1 path stamps a missing one, and `normalizeOptimize`
stamps unconditionally. -/
theorem c4_runid_amended_witness :
    (∃ resp, v1FinishResponse "T0" c4v1withRunId = .ok resp ∧
      resp.runId = "solver-run-7") ∧
    (∃ resp, v1FinishResponse "T0" { c4v1withRunId with runId := none } =
      .ok resp ∧ resp.runId = "T0") ∧
    (∃ resp, normalizeOptimize "T0" c4raw = .ok resp ∧ resp.runId = "T0") := by
  have hacc : fastApiSchemaAccepts c4raw = true := by
    simp [fastApiSchemaAccepts, c4raw, entryOk]
  have h1 : v1FinishResponse "T0" c4v1withRunId =
      .ok { runId := "solver-run-7", method := "quantum", weights := [1],
            selected := ["X"], expectedReturn := 0, risk := 0,
            sharpe := 0 } := by
    rfl
  have h2 : v1FinishResponse "T0" { c4v1withRunId with runId := none } =
      .ok { runId := "T0", method := "quantum", weights := [1],
            selected := ["X"], expectedReturn := 0, risk := 0,
            sharpe := 0 } := by
    rfl
  have h3 : normalizeOptimize "T0" c4raw = .ok (normalizeCore "T0" c4raw) :=
    normalizeOptimize_ok _ _ hacc
  exact ⟨⟨_, h1, c4_runid_amended.1 "T0" "solver-run-7" c4v1withRunId _
      rfl (by decide) h1⟩,
    ⟨_, h2, c4_runid_amended.2.1 "T0" { c4v1withRunId with runId := none } _
      rfl h2⟩,
    ⟨_, h3, c4_runid_amended.2.2 "T0" c4raw _ h3⟩⟩

/-! ## Mock mode (src: the mock branch of `callQuantumOptimizeJSON`) -/

/-- **C9.** With mock mode active, two successive invocations that read the
same fixture return normalized responses that agree on every field except
`runId` (overwriting one `runId` with the other makes them equal), carry the
two distinct fresh timestamps as `runId`, and perform zero outbound fetch
calls on either invocation. -/
theorem c9_mock_mode (f : FastApiRawResponse) (t1 t2 : String)
    (b1 b2 : Bool) (o1 o2 : FetchOutcome)
    (hne : t1 ≠ t2) (hacc : fastApiSchemaAccepts f = true) :
    ∃ n1 n2,
      callQuantumOptimizeJSON true (.ok f) b1 o1 t1 = (.ok n1, 0) ∧
      callQuantumOptimizeJSON true (.ok f) b2 o2 t2 = (.ok n2, 0) ∧
      n1.runId = t1 ∧ n2.runId = t2 ∧
      n1.runId ≠ n2.runId ∧
      { n1 with runId := n2.runId } = n2 := by
  refine ⟨normalizeCore t1 f, normalizeCore t2 f, ?_, ?_, rfl, rfl, ?_, rfl⟩
  · simp [callQuantumOptimizeJSON, normalizeOptimize_ok t1 f hacc]
    rfl
  · simp [callQuantumOptimizeJSON, normalizeOptimize_ok t2 f hacc]
    rfl
  · simpa [normalizeCore] using hne

/-- Witness for C9 at the concrete sample fixture and two distinct
timestamps. -/
theorem c9_mock_mode_witness :
    ∃ n1 n2,
      callQuantumOptimizeJSON true (.ok sampleRaw) false
        (.failure "unused") "T1" = (.ok n1, 0) ∧
      callQuantumOptimizeJSON true (.ok sampleRaw) false
        (.failure "unused") "T2" = (.ok n2, 0) ∧
      n1.runId = "T1" ∧ n2.runId = "T2" ∧
      n1.runId ≠ n2.runId ∧
      { n1 with runId := n2.runId } = n2 :=
  c9_mock_mode sampleRaw "T1" "T2" false false
    (.failure "unused") (.failure "unused") (by decide) sampleRaw_accepts

/-! ## Inbound request validation and the optimize controller
(src: `OptimizeRequestSchema`, `optimizeController`) -/

/-- An inbound optimize payload before validation.  Each field is `none`
when the JSON key is absent; numbers are `ℚ`, strings `String`.  (`include`
and `exclude` are renamed `includeList`/`excludeList`; the `qaoaParams`
sub-object is flattened into its validated fields.) -/
structure RawOptimizeRequest where
  mode : Option String
  dataset : Option String
  timeHorizon : Option ℚ
  riskLevel : Option String
  budget : Option ℚ
  maxAssets : Option ℚ
  objective : Option String
  qaoaP : Option ℚ
  qaoaShots : Option ℚ
  qaoaSeed : Option ℚ
  minWeight : Option ℚ
  maxWeight : Option ℚ
  includeList : Option (List String)
  excludeList : Option (List String)

/-- `z.literal("dataset")`: required literal. -/
def checkMode (r : RawOptimizeRequest) : List String :=
  match r.mode with
  | none => ["mode: Required"]
  | some m => if m = "dataset" then [] else ["mode: Invalid literal value"]

/-- `DatasetEnum`: required closed enum. -/
def checkDataset (r : RawOptimizeRequest) : List String :=
  match r.dataset with
  | none => ["dataset: Required"]
  | some d =>
    if memStr d ["NIFTY50", "NASDAQ100", "CRYPTO50"] then []
    else ["dataset: Invalid enum value"]

/-- `z.number().int().positive()`: required; each failed check contributes
its own issue, as zod runs all number checks. -/
def checkTimeHorizon (r : RawOptimizeRequest) : List String :=
  match r.timeHorizon with
  | none => ["timeHorizon: Required"]
  | some q =>
    (if q.den = 1 then [] else ["timeHorizon: Expected integer"]) ++
    (if 0 < q then [] else ["timeHorizon: Number must be greater than 0"])

/-- `z.enum(["low","medium","high"]).default("medium")`: optional with a
default, so absence is not a violation. -/
def checkRiskLevel (r : RawOptimizeRequest) : List String :=
  match r.riskLevel with
  | none => []
  | some s =>
    if memStr s ["low", "medium", "high"] then []
    else ["riskLevel: Invalid enum value"]

/-- `z.number().finite().positive()`: required (finiteness cannot fail over
`ℚ`). -/
def checkBudget (r : RawOptimizeRequest) : List String :=
  match r.budget with
  | none => ["budget: Required"]
  | some q => if 0 < q then [] else ["budget: Number must be greater than 0"]

/-- `z.number().int().positive()`: required. -/
def checkMaxAssets (r : RawOptimizeRequest) : List String :=
  match r.maxAssets with
  | none => ["maxAssets: Required"]
  | some q =>
    (if q.den = 1 then [] else ["maxAssets: Expected integer"]) ++
    (if 0 < q then [] else ["maxAssets: Number must be greater than 0"])

/-- `z.enum(["sharpe","variance"]).default("sharpe")`. -/
def checkObjective (r : RawOptimizeRequest) : List String :=
  match r.objective with
  | none => []
  | some s =>
    if memStr s ["sharpe", "variance"] then []
    else ["objective: Invalid enum value"]

/-- `qaoaParams` (all-optional sub-object defaulting to `{}`): `p` and
`shots` positive integers when present, `seed` an integer when present;
`optimizer` is an unconstrained string and cannot fail. -/
def checkQaoaParams (r : RawOptimizeRequest) : List String :=
  (match r.qaoaP with
   | none => []
   | some q =>
     (if q.den = 1 then [] else ["qaoaParams.p: Expected integer"]) ++
     (if 0 < q then [] else ["qaoaParams.p: Number must be greater than 0"])) ++
  (match r.qaoaShots with
   | none => []
   | some q =>
     (if q.den = 1 then [] else ["qaoaParams.shots: Expected integer"]) ++
     (if 0 < q then [] else
       ["qaoaParams.shots: Number must be greater than 0"])) ++
  (match r.qaoaSeed with
   | none => []
   | some q =>
     if q.den = 1 then [] else ["qaoaParams.seed: Expected integer"])

/-- `constraints` (optional sub-object): `minWeight` and `maxWeight` each in
`[0,1]` when present; both bound checks run. -/
def checkConstraints (r : RawOptimizeRequest) : List String :=
  (match r.minWeight with
   | none => []
   | some q =>
     (if 0 ≤ q then [] else ["constraints.minWeight: Number must be >= 0"]) ++
     (if q ≤ 1 then [] else ["constraints.minWeight: Number must be <= 1"])) ++
  (match r.maxWeight with
   | none => []
   | some q =>
     (if 0 ≤ q then [] else ["constraints.maxWeight: Number must be >= 0"]) ++
     (if q ≤ 1 then [] else ["constraints.maxWeight: Number must be <= 1"]))

/-- `include`/`exclude` are optional string arrays; with a typed carrier no
value-level check can fail, so they contribute no issues. -/
def checkIncludeExclude (r : RawOptimizeRequest) : List String :=
  match r.includeList, r.excludeList with
  | _, _ => []

/-- The per-field validators of `OptimizeRequestSchema`, in declaration
order.  zod validates every key of an object independently and concatenates
the issues, so a payload violating several fields reports all of them. -/
def optimizeFieldChecks : List (RawOptimizeRequest → List String) :=
  [checkMode, checkDataset, checkTimeHorizon, checkRiskLevel, checkBudget,
   checkMaxAssets, checkObjective, checkQaoaParams, checkConstraints,
   checkIncludeExclude]

/-- All issues reported by `OptimizeRequestSchema.parse`; the parse succeeds
iff this list is empty. -/
def optimizeRequestIssues (r : RawOptimizeRequest) : List String :=
  (optimizeFieldChecks.map (fun c => c r)).flatten

/-- `optimizeController` from `optimize.controller.js`, with the service
call abstracted as `solver` and the number of service invocations counted:
parse the body against `OptimizeRequestSchema`; on a zod failure forward an
`Invalid payload` error with `type = "validation"` and
`details = e.issues.map(i => i.message)`, making no service call; otherwise
invoke the service exactly once and forward its result. -/
def optimizeController {α : Type}
    (solver : RawOptimizeRequest → Except JsError α)
    (body : RawOptimizeRequest) : Except JsError α × Nat :=
  if optimizeRequestIssues body = [] then
    (solver body, 1)
  else
    (.error { etype := some .validation, message := "Invalid payload",
              issues := none, details := optimizeRequestIssues body }, 0)

/-- **C7.** Every inbound optimize payload that fails schema validation
produces an error classified `validation` whose `details` carry the full
issue list — every violated field contributes its messages, not just the
first — and the solver service is invoked zero times. -/
theorem c7_validation_blocks_call {α : Type}
    (solver : RawOptimizeRequest → Except JsError α)
    (body : RawOptimizeRequest) (h : optimizeRequestIssues body ≠ []) :
    optimizeController solver body =
      (.error { etype := some .validation, message := "Invalid payload",
                issues := none, details := optimizeRequestIssues body }, 0) ∧
    (optimizeController solver body).2 = 0 ∧
    ∀ check ∈ optimizeFieldChecks, ∀ m ∈ check body,
      m ∈ optimizeRequestIssues body := by
  have hctl : optimizeController solver body =
      (.error { etype := some .validation, message := "Invalid payload",
                issues := none, details := optimizeRequestIssues body }, 0) := by
    unfold optimizeController
    rw [if_neg h]
  refine ⟨hctl, by rw [hctl], ?_⟩
  intro check hcheck m hm
  unfold optimizeRequestIssues
  exact List.mem_flatten.mpr ⟨check body,
    List.mem_map_of_mem (fun c => c body) hcheck, hm⟩

/-- A payload with `maxAssets: 0` and `timeHorizon: -1` (two violated
fields), otherwise valid. -/
def c7body : RawOptimizeRequest :=
  { mode := some "dataset", dataset := some "NIFTY50",
    timeHorizon := some (-1), riskLevel := some "medium",
    budget := some 100000, maxAssets := some 0, objective := some "sharpe",
    qaoaP := none, qaoaShots := none, qaoaSeed := none,
    minWeight := none, maxWeight := none,
    includeList := none, excludeList := none }

/-- The two violated fields of `c7body` each contribute their message. -/
theorem c7body_issues : optimizeRequestIssues c7body =
    ["timeHorizon: Number must be greater than 0",
     "maxAssets: Number must be greater than 0"] := by
  simp [optimizeRequestIssues, optimizeFieldChecks, checkMode, checkDataset,
    checkTimeHorizon, checkRiskLevel, checkBudget, checkMaxAssets,
    checkObjective, checkQaoaParams, checkConstraints, checkIncludeExclude,
    c7body, memStr]
  norm_num

/-- Witness for C7: the malformed payload (`maxAssets: 0`, negative
`timeHorizon`) yields the `validation` error listing both violated fields
and zero service calls. -/
theorem c7_validation_blocks_call_witness :
    optimizeController (fun _ => (.ok () : Except JsError Unit)) c7body =
      (.error { etype := some .validation, message := "Invalid payload",
                issues := none, details := optimizeRequestIssues c7body }, 0) ∧
    (optimizeController (fun _ => (.ok () : Except JsError Unit)) c7body).2
      = 0 ∧
    ∀ check ∈ optimizeFieldChecks, ∀ m ∈ check c7body,
      m ∈ optimizeRequestIssues c7body :=
  c7_validation_blocks_call (fun _ => .ok ()) c7body
    (by rw [c7body_issues]; decide)

/-! ## Status-code translation (src: `rebalanceHandler`; the optimize-route
error middleware is spec-modelled) -/

/-- `rebalanceHandler` from the rebalance controller: the HTTP status it
responds with when the handler throws — a zod error (one carrying `issues`)
gets 400 with field details, then `err.type` is consulted:
`upstream_timeout` 504, `upstream_unavailable` 502, anything else 500. -/
def rebalanceHandlerStatus (e : JsError) : Nat :=
  if e.issues.isSome then 400
  else if e.etype = some .upstream_timeout then 504
  else if e.etype = some .upstream_unavailable then 502
  else 500

/-- Modelled from the spec: the error middleware behind the optimize route
is not among the provided sources (the controller comment reads "zod
validation errors => 422 via error middleware"); per the spec it translates
validation→422, upstream_timeout→504, upstream_unavailable→502, and
internal (any unclassified error)→500. -/
def errorMiddlewareStatus (e : JsError) : Nat :=
  if e.etype = some .validation then 422
  else if e.etype = some .upstream_timeout then 504
  else if e.etype = some .upstream_unavailable then 502
  else 500

/-- The HTTP status of the optimize route: `res.status(200)` on success,
else the middleware translation of the forwarded error. -/
def optimizeRouteStatus {α : Type}
    (solver : RawOptimizeRequest → Except JsError α)
    (body : RawOptimizeRequest) : Nat :=
  match (optimizeController solver body).1 with
  | .ok _ => 200
  | .error e => errorMiddlewareStatus e

/-- **C8, counterexample.** The claim says the status mapping sends
validation-classified errors to 422 on every path.  On the rebalance path a
schema-validation (zod) failure is answered with HTTP 400, not 422. -/
theorem c8_status_counterexample :
    rebalanceHandlerStatus (zodError ["timeHorizon: Required"]) = 400 ∧
    (400 : Nat) ≠ 422 := by
  constructor
  · rfl
  · decide

/-- **C8, amended.** The HTTP status is a function of the error
classification, but the two routes translate validation differently: the
optimize route's middleware maps validation→422, upstream_timeout→504,
upstream_unavailable→502 and anything unclassified→500, while the rebalance
handler maps schema-validation (zod) errors to 400 and otherwise
upstream_timeout→504, upstream_unavailable→502, else 500; a successful
optimize request returns the normalized response with status 200. -/
theorem c8_status_mapping (m : String) (msgs : List String) :
    errorMiddlewareStatus
      { etype := some .validation, message := m, issues := none,
        details := msgs } = 422 ∧
    errorMiddlewareStatus (upstreamErr .upstream_timeout m) = 504 ∧
    errorMiddlewareStatus (upstreamErr .upstream_unavailable m) = 502 ∧
    errorMiddlewareStatus
      { etype := none, message := m, issues := none, details := [] } = 500 ∧
    rebalanceHandlerStatus (zodError msgs) = 400 ∧
    rebalanceHandlerStatus (upstreamErr .upstream_timeout m) = 504 ∧
    rebalanceHandlerStatus (upstreamErr .upstream_unavailable m) = 502 ∧
    rebalanceHandlerStatus
      { etype := none, message := m, issues := none, details := [] } = 500 ∧
    ∀ (α : Type) (solver : RawOptimizeRequest → Except JsError α)
      (body : RawOptimizeRequest) (v : α),
      solver body = .ok v → optimizeRequestIssues body = [] →
      optimizeRouteStatus solver body = 200 := by
  refine ⟨rfl, rfl, rfl, rfl, rfl, rfl, rfl, rfl, ?_⟩
  intro α solver body v hsolve hissues
  unfold optimizeRouteStatus optimizeController
  rw [if_pos hissues]
  simp only [hsolve]

/-- A fully valid inbound payload. -/
def c8body : RawOptimizeRequest :=
  { mode := some "dataset", dataset := some "NIFTY50",
    timeHorizon := some 15, riskLevel := some "medium",
    budget := some 100000, maxAssets := some 3, objective := some "sharpe",
    qaoaP := none, qaoaShots := none, qaoaSeed := none,
    minWeight := none, maxWeight := none,
    includeList := none, excludeList := none }

/-- The valid payload produces no issues. -/
theorem c8body_issues : optimizeRequestIssues c8body = [] := by
  simp [optimizeRequestIssues, optimizeFieldChecks, checkMode, checkDataset,
    checkTimeHorizon, checkRiskLevel, checkBudget, checkMaxAssets,
    checkObjective, checkQaoaParams, checkConstraints, checkIncludeExclude,
    c8body, memStr]

/-- Witness for the amended C8 at concrete inputs: a concrete validation
error gets 422 from the (spec-modelled) optimize middleware, and a concrete
successful request returns 200. -/
theorem c8_status_mapping_witness :
    errorMiddlewareStatus
      { etype := some .validation, message := "Invalid payload",
        issues := none, details := ["maxAssets: Required"] } = 422 ∧
    optimizeRouteStatus (fun _ => (.ok () : Except JsError Unit))
      c8body = 200 :=
  ⟨(c8_status_mapping "Invalid payload" ["maxAssets: Required"]).1,
   (c8_status_mapping "Invalid payload" ["maxAssets: Required"]).2.2.2.2.2.2.2.2
     Unit (fun _ => .ok ()) c8body () rfl c8body_issues⟩

/-- The mapped dataset is always in the solver's closed enum. -/
theorem mapDatasetOption_mem_enum (d : String) :
    mapDatasetOption d ∈ solverDatasetEnum := by
  unfold mapDatasetOption solverDatasetEnum
  split
  · simp
  · split
    · simp
    · split <;> simp

/-- Inputs outside the lookup table keys map to the fallback dataset. -/
theorem mapDatasetOption_default (d : String)
    (h : ¬(d = "NIFTY50" ∨ d = "NASDAQ100" ∨ d = "CRYPTO50")) :
    mapDatasetOption d = "NIFTY50" := by
  push_neg at h
  obtain ⟨h1, h2, h3⟩ := h
  unfold mapDatasetOption
  rw [if_neg h1, if_neg h2, if_neg h3]

/-- **C5.** For every optimize request, the solver request built by
`toFastApiOptimizeBody` has a `dataset_option` drawn from the solver's closed
dataset enum (the range of the fixed lookup table `mapDatasetOption`), and any
input outside the table's keys is mapped to the fallback dataset `"NIFTY50"`
rather than echoed through unmapped. -/
theorem c5_dataset_closed_enum :
    (∀ m : ModeARequest,
      (toFastApiOptimizeBody m).dataset_option ∈ solverDatasetEnum) ∧
    (∀ d : String, ¬(d = "NIFTY50" ∨ d = "NASDAQ100" ∨ d = "CRYPTO50") →
      mapDatasetOption d = "NIFTY50") := by
  constructor
  · intro m
    exact mapDatasetOption_mem_enum m.dataset
  · intro d hd
    exact mapDatasetOption_default d hd

/-- Witness for C5 at concrete inputs: a mapped dataset (`"CRYPTO50"`) lands
in the enum and an unmapped client value (`"nifty50"`) is not echoed. -/
theorem c5_dataset_closed_enum_witness :
    (toFastApiOptimizeBody
      { dataset := "CRYPTO50", riskLevel := some "low",
        budget := 100000, maxAssets := 3 }).dataset_option ∈ solverDatasetEnum
    ∧ mapDatasetOption "nifty50" = "NIFTY50" := by
  refine ⟨c5_dataset_closed_enum.1 _, c5_dataset_closed_enum.2 "nifty50" ?_⟩
  decide

end QuantumGateway
